import Mathlib

/-!
Shallow embedding of `src/main.rs` of push-to-talk-xcb-alsa.

The program has two concurrent components sharing one atomic boolean
(`expected_capture_state`, the spec's `DesiredCaptureState`):
the key-event interpreter (`listen_to_keyboard_events_and_update_mixer`)
and the mixer-state enforcer (`enforce_mixer_capture_state`).

Modelling conventions:
* `ModMask` / `KeyButMask` values and keycodes are `Nat` bit masks / codes.
* ALSA channels are an arbitrary `List Nat` (the concrete ids behind
  `SelemChannelId::all()` never matter, only "every channel").
* Fallible external calls are oracles: per-channel write success is a
  `Nat → Bool` predicate, per-channel reads a `List (Except String Bool)`,
  the remaining ALSA/X calls plain `Bool` success flags.
* Observable behaviour is a trace of `Effect`s: atomic stores, per-channel
  hardware writes, sleeps, log lines, and panics (`expect`/`panic!`).
  A `panicE` in a trace means the executing thread aborts there.
-/

/-- Trace of observable actions performed by either thread. -/
inductive Effect where
  | sleepE (ms : Nat)
  | storeE (b : Bool)
  | writeChE (ch : Nat) (b : Bool)
  | logE (msg : String)
  | panicE (msg : String)
  deriving Repr, DecidableEq

/-- `true` iff the effect is a store into the shared `expected_capture_state`. -/
def Effect.isStore : Effect → Bool
  | .storeE _ => true
  | _ => false

/-- `true` iff the effect is a hardware capture-switch write of one channel. -/
def Effect.isHwWrite : Effect → Bool
  | .writeChE _ _ => true
  | _ => false

/-- `true` iff the effect is a panic (thread abort). -/
def Effect.isPanicEff : Effect → Bool
  | .panicE _ => true
  | _ => false

/-- A trace aborts the thread iff it reaches a panic. -/
def containsPanic (tr : List Effect) : Bool :=
  tr.any Effect.isPanicEff

/-- Milliseconds slept before the first store into the shared state
(used to express "immediately" vs "after the delay"). -/
def msBeforeFirstStore : List Effect → Nat
  | [] => 0
  | .storeE _ :: _ => 0
  | .sleepE ms :: rest => ms + msBeforeFirstStore rest
  | _ :: rest => msBeforeFirstStore rest

/-- `set_capture_state` (main.rs:153-158): write `state` to the capture switch
of every channel in order; the `?` on a failing `set_capture_switch` returns
early with the error, so only the successfully written channels appear in the
trace. `writeOk ch` tells whether writing channel `ch` succeeds. -/
def set_capture_state (channels : List Nat) (writeOk : Nat → Bool) (state : Bool) :
    List Effect × Except String Unit :=
  match channels with
  | [] => ([], .ok ())
  | ch :: rest =>
    if writeOk ch then
      (Effect.writeChE ch state :: (set_capture_state rest writeOk state).1,
       (set_capture_state rest writeOk state).2)
    else
      ([], .error "set_capture_switch failed")

/-- `set_expected_capture_state` (main.rs:375-381): store `state` into the
atomic with Release ordering, then write the hardware; on hardware failure,
log the error and `panic!`. The store is never undone. -/
def set_expected_capture_state (channels : List Nat) (writeOk : Nat → Bool)
    (state : Bool) : List Effect :=
  Effect.storeE state :: (set_capture_state channels writeOk state).1 ++
    (match (set_capture_state channels writeOk state).2 with
     | .ok _ => []
     | .error _ => [Effect.logE "Error setting mixer capture state",
                    Effect.panicE "Failure to set mixer caputre state"])

/-- `mute` (main.rs:329-331): set expected state to `false`, no delay. -/
def mute (channels : List Nat) (writeOk : Nat → Bool) : List Effect :=
  set_expected_capture_state channels writeOk false

/-- `unmute` (main.rs:333-336): sleep `unmute_delay_ms`, then set expected
state to `true`. -/
def unmute (channels : List Nat) (writeOk : Nat → Bool) (unmute_delay_ms : Nat) :
    List Effect :=
  Effect.sleepE unmute_delay_ms :: set_expected_capture_state channels writeOk true

/-- The `KeyAction` enum of the interpreter (main.rs:184-188). -/
inductive KeyAction where
  | Push
  | Toggle
  deriving Repr, DecidableEq

/-- Press/release lookup table: association list from
`(KeyButMask bits, keycode)` to `KeyAction`; mirrors the Rust `HashMap`. -/
abbrev KeyMap := List ((Nat × Nat) × KeyAction)

/-- Interpreter-local mutable state: the value last stored into the shared
atomic (the interpreter is its only writer, so its Acquire loads return its
own last Release store) and the `mute_pending_release` latch (main.rs:199). -/
structure InterpState where
  expected : Bool
  mutePendingRelease : Bool
  deriving Repr, DecidableEq

/-- `Event::KeyPress` branch of the interpreter loop (main.rs:223-238):
look up `(evt.state(), evt.detail())` in the press map; `Push` unmutes with
delay; `Toggle` mutes and sets the latch only when currently capturing. -/
def handle_press (press_map : KeyMap) (channels : List Nat) (writeOk : Nat → Bool)
    (unmute_delay_ms : Nat) (s : InterpState) (st kc : Nat) :
    InterpState × List Effect :=
  match press_map.lookup (st, kc) with
  | some KeyAction.Push =>
    ({ s with expected := true },
     Effect.logE "Unmuting by push-press" :: unmute channels writeOk unmute_delay_ms)
  | some KeyAction.Toggle =>
    if s.expected then
      (⟨false, true⟩,
       Effect.logE "Muting by toggle-press" :: mute channels writeOk)
    else
      (s, [])
  | none => (s, [])

/-- `Event::KeyRelease` classification (main.rs:248-262), after the debounce
check: look up in the release map; `Push` mutes immediately; `Toggle` first
consumes the latch, otherwise unmutes with delay when currently muted. -/
def handle_release (release_map : KeyMap) (channels : List Nat) (writeOk : Nat → Bool)
    (unmute_delay_ms : Nat) (s : InterpState) (st kc : Nat) :
    InterpState × List Effect :=
  match release_map.lookup (st, kc) with
  | some KeyAction.Push =>
    ({ s with expected := false },
     Effect.logE "Muting by push-release" :: mute channels writeOk)
  | some KeyAction.Toggle =>
    if s.mutePendingRelease then
      ({ s with mutePendingRelease := false }, [])
    else if !s.expected then
      ({ s with expected := true },
       Effect.logE "Unmuting by toggle-release" :: unmute channels writeOk unmute_delay_ms)
    else
      (s, [])
  | none => (s, [])

/-- X key events seen by the interpreter loop after the `xcb::Event::X`
unwrapping (main.rs:222-265): `state` is the `KeyButMask` bits, `detail`
the keycode, `time` the server timestamp; `otherX` covers the `_ => ()`
arm (non-key X events, ignored). -/
inductive XEvent where
  | keyPress (state : Nat) (detail : Nat) (time : Nat)
  | keyRelease (state : Nat) (detail : Nat) (time : Nat)
  | otherX
  deriving Repr, DecidableEq

/-- The interpreter main loop (main.rs:201-268), run over a queue of events,
with the peeked `next_event_maybe` modelled as the head of the remaining
queue and hardware effects as a trace. Mirrors:
* debounce (main.rs:239-246): a current release whose peeked successor is a
  press with identical `detail` and identical `time` discards both events;
* otherwise press/release classification through the two maps;
* a panic inside an action aborts the loop (Rust unwinds the thread).
Stream errors / non-X events (which exit the loop) and the trailing
`handle_events` call are outside the queue model; none of the claims about
this loop involve them. -/
def interp_run (press_map release_map : KeyMap) (channels : List Nat)
    (writeOk : Nat → Bool) (unmute_delay_ms : Nat) :
    InterpState → List XEvent → InterpState × List Effect
  | s, [] => (s, [])
  | s, XEvent.keyRelease st kc t :: XEvent.keyPress st2 kc2 t2 :: rest =>
    if kc2 = kc ∧ t2 = t then
      interp_run press_map release_map channels writeOk unmute_delay_ms s rest
    else
      let (s1, tr1) := handle_release release_map channels writeOk unmute_delay_ms s st kc
      if containsPanic tr1 then (s1, tr1)
      else
        let (s2, tr2) := handle_press press_map channels writeOk unmute_delay_ms s1 st2 kc2
        if containsPanic tr2 then (s2, tr1 ++ tr2)
        else
          let (s3, tr3) := interp_run press_map release_map channels writeOk unmute_delay_ms s2 rest
          (s3, tr1 ++ tr2 ++ tr3)
  | s, XEvent.keyRelease st kc _ :: rest =>
    let (s1, tr1) := handle_release release_map channels writeOk unmute_delay_ms s st kc
    if containsPanic tr1 then (s1, tr1)
    else
      let (s2, tr2) := interp_run press_map release_map channels writeOk unmute_delay_ms s1 rest
      (s2, tr1 ++ tr2)
  | s, XEvent.keyPress st kc _ :: rest =>
    let (s1, tr1) := handle_press press_map channels writeOk unmute_delay_ms s st kc
    if containsPanic tr1 then (s1, tr1)
    else
      let (s2, tr2) := interp_run press_map release_map channels writeOk unmute_delay_ms s1 rest
      (s2, tr1 ++ tr2)
  | s, XEvent.otherX :: rest =>
    interp_run press_map release_map channels writeOk unmute_delay_ms s rest

/-- `try_collect_map` (main.rs:271-279): fold the entries into a map,
failing with "Conflicting keybindings" as soon as `insert` finds the key
already present. The `HashMap` is an association list; membership test
mirrors `map.insert(k, v).is_none()`. -/
def try_collect_map (entries : List ((Nat × Nat) × KeyAction)) :
    Except String KeyMap :=
  go entries []
where
  /-- the `try_fold` with accumulator `map` -/
  go : List ((Nat × Nat) × KeyAction) → KeyMap → Except String KeyMap
  | [], map => .ok map
  | (k, v) :: rest, map =>
    if (map.lookup k).isNone then
      go rest (map ++ [(k, v)])
    else
      .error "Conflicting keybindings"

/-- Bits of the defined `KeyButMask` flags (8 modifier bits and 5 button
bits); `KeyButMask::from_bits_truncate` keeps exactly these. -/
def KEYBUTMASK_BITS : Nat := 0x1FFF

/-- `from_mod_mask` (main.rs:281-283): reinterpret a `ModMask` as a
`KeyButMask` via `from_bits_truncate`. -/
def from_mod_mask (modifiers : Nat) : Nat :=
  modifiers &&& KEYBUTMASK_BITS

/-- The eight modifier masks in X order (main.rs:313-322):
shift, lock, control, mod1..mod5. -/
def MODIFIER_MASKS : List Nat := [1, 2, 4, 8, 16, 32, 64, 128]

/-- `HashMap::insert` semantics for collecting an iterator of pairs:
a later entry for the same key replaces the earlier one. -/
def hashmap_collect (entries : List (Nat × Nat)) : List (Nat × Nat) :=
  entries.foldl (fun map kv =>
    if (map.lookup kv.1).isSome then
      map.map (fun kv0 => if kv0.1 = kv.1 then kv else kv0)
    else
      map ++ [kv]) []

/-- `get_modifier_mapping` (main.rs:307-327): given the reply's flat keycode
array (8 modifiers × `keycodes_per_modifier` entries), map every non-zero
keycode to the mask of the modifier whose row it sits in. -/
def get_modifier_mapping (reply_keycodes : List Nat) : List (Nat × Nat) :=
  let keycodes_per_modifier := reply_keycodes.length / 8
  hashmap_collect
    (((reply_keycodes.toChunks keycodes_per_modifier).take 8).zip MODIFIER_MASKS
      |>.flatMap (fun (keycodes, mask) =>
        (keycodes.filter (fun kc => kc ≠ 0)).map (fun kc => (kc, mask))))

/-- The per-keycode release mask (main.rs:181-182): the declared modifiers
OR'd with the keycode's own modifier bit when the keycode is itself a
modifier, else the declared modifiers unchanged. -/
def release_modifiers_for (declared : Nat) (keycode_to_modifier : List (Nat × Nat))
    (kc : Nat) : Nat :=
  declared ||| ((keycode_to_modifier.lookup kc).getD 0)

/-- Press-table entries for one binding (main.rs:190-191). -/
def press_entries (declared : Nat) (keycodes : List Nat) (act : KeyAction) :
    List ((Nat × Nat) × KeyAction) :=
  keycodes.map (fun kc => ((from_mod_mask declared, kc), act))

/-- Release-table entries for one binding (main.rs:192-193). -/
def release_entries (declared : Nat) (keycode_to_modifier : List (Nat × Nat))
    (keycodes : List Nat) (act : KeyAction) : List ((Nat × Nat) × KeyAction) :=
  keycodes.map (fun kc =>
    ((from_mod_mask (release_modifiers_for declared keycode_to_modifier kc), kc), act))

/-- `listen_to_hotkey` (main.rs:359-373): send a `GrabKey` request for every
keycode under the declared modifiers (all cookies are sent before any check),
then check each; the first failing check yields the error. Returns the list
of grab requests sent to the X server and the check result.
`grabOk (mods, kc)` tells whether that grab succeeds. -/
def listen_to_hotkey (grabOk : Nat × Nat → Bool) (modifiers : Nat)
    (keycodes : List Nat) : List (Nat × Nat) × Except String Unit :=
  (keycodes.map (fun kc => (modifiers, kc)),
   if keycodes.all (fun kc => grabOk (modifiers, kc)) then .ok ()
   else .error "Failed to grab hotkey")

/-- Result of interpreter startup: either a panic (a failed `unwrap`) or the
two lookup maps. -/
inductive StartupResult where
  | panicked (msg : String)
  | running (press_map release_map : KeyMap)
  deriving Repr, DecidableEq

/-- Startup sequence of the interpreter (main.rs:175-196) after keycode
resolution: grab the push hotkeys, then the toggle hotkeys, then query the
modifier mapping and build the press and release maps, `unwrap`ing each
step. Returns the grab requests actually sent to the X server together with
the outcome; note the grabs happen before the maps are built. -/
def startup (grabOk : Nat × Nat → Bool) (push_modifiers : Nat)
    (push_keycodes : List Nat) (toggle_modifiers : Nat) (toggle_keycodes : List Nat)
    (keycode_to_modifier : List (Nat × Nat)) : List (Nat × Nat) × StartupResult :=
  let (g1, r1) := listen_to_hotkey grabOk push_modifiers push_keycodes
  match r1 with
  | .error e => (g1, .panicked e)
  | .ok _ =>
    let (g2, r2) := listen_to_hotkey grabOk toggle_modifiers toggle_keycodes
    match r2 with
    | .error e => (g1 ++ g2, .panicked e)
    | .ok _ =>
      match try_collect_map
          (press_entries push_modifiers push_keycodes KeyAction.Push ++
           press_entries toggle_modifiers toggle_keycodes KeyAction.Toggle) with
      | .error e => (g1 ++ g2, .panicked e)
      | .ok pm =>
        match try_collect_map
            (release_entries push_modifiers keycode_to_modifier push_keycodes KeyAction.Push ++
             release_entries toggle_modifiers keycode_to_modifier toggle_keycodes KeyAction.Toggle) with
        | .error e => (g1 ++ g2, .panicked e)
        | .ok rm => (g1 ++ g2, .running pm rm)

/-- Worker for `get_unanimous_capture_state`: the `for` loop over the
remaining channels (main.rs:144-149), comparing each read against the first
channel's value; a read error propagates, the first mismatch returns
`Ok(None)` without evaluating later reads. -/
def unanimous_rest (first_channel_state : Bool) :
    List (Except String Bool) → Except String (Option Bool)
  | [] => .ok (some first_channel_state)
  | r :: rest =>
    match r with
    | .error e => .error e
    | .ok state =>
      if state ≠ first_channel_state then .ok none
      else unanimous_rest first_channel_state rest

/-- `get_unanimous_capture_state` (main.rs:141-151): read the capture switch
of every channel; `Ok(Some v)` when unanimous, `Ok(None)` on disagreement,
`Err` when a read fails before a disagreement is found. `reads` gives each
channel's read outcome in `SelemChannelId::all()` order (never empty). -/
def get_unanimous_capture_state (reads : List (Except String Bool)) :
    Except String (Option Bool) :=
  match reads with
  | [] => .error "SelemChannelId::all() is empty"
  | r0 :: rest =>
    match r0 with
    | .error e => .error e
    | .ok first_channel_state => unanimous_rest first_channel_state rest

/-- Oracle outcomes of the external calls made by one iteration of the
enforcer loop (main.rs:109-130). -/
structure EnfEnv where
  /-- `get_alsa_mixer_capture_elem` succeeds (control found, has a capture
  switch) -/
  find_selem_ok : Bool
  /-- per-channel `get_capture_switch` outcomes -/
  reads : List (Except String Bool)
  /-- the `Ordering::Acquire` load of `expected_capture_state` -/
  expectedLoad : Bool
  /-- per-channel `set_capture_switch` success -/
  writeOk : Nat → Bool
  /-- `alsa_mixer.wait(None)` succeeds -/
  wait_ok : Bool
  /-- `alsa_mixer.handle_events()` succeeds -/
  handle_events_ok : Bool
  /-- the wait-plus-handle phase took more than 1000 ms -/
  slow_cycle : Bool
  /-- `Mixer::new` succeeds when the slow-cycle heuristic reopens it -/
  reopen_ok : Bool

/-- How one enforcer iteration ends: continue to the next iteration
(possibly with a freshly reopened mixer) or panic, terminating the thread
(every `expect` in the loop body). -/
inductive CycleEnd where
  | next (reopened : Bool)
  | panicked (msg : String)
  deriving Repr, DecidableEq

/-- One iteration of the `enforce_mixer_capture_state` loop body
(main.rs:109-130): on a failed control lookup sleep 10 ms and retry;
`expect` the unanimity read; when the read state differs from the loaded
expectation (`actual != Some(expected)`, which is also the case when the
channels disagree and `actual` is `None`), log and write the expectation to
every channel, logging a write error; then `expect` the wait and the event
drain, and reopen the mixer (`expect`ing success) when they took over
1000 ms. -/
def enforcer_cycle (channels : List Nat) (env : EnfEnv) : CycleEnd × List Effect :=
  if !env.find_selem_ok then
    (CycleEnd.next false, [Effect.sleepE 10])
  else
    match get_unanimous_capture_state env.reads with
    | .error _ => (CycleEnd.panicked "Could not get capture switch value", [])
    | .ok actual =>
      (if !env.wait_ok then
        CycleEnd.panicked "alsa_mixer.wait() failed"
      else if !env.handle_events_ok then
        CycleEnd.panicked "alsa_mixer.handle_events() failed"
      else if env.slow_cycle then
        (if env.reopen_ok then CycleEnd.next true
         else CycleEnd.panicked "Failed to setup alsa")
      else
        CycleEnd.next false,
      if actual ≠ some env.expectedLoad then
        Effect.logE "Fixing capture state" ::
          (set_capture_state channels env.writeOk env.expectedLoad).1 ++
          (match (set_capture_state channels env.writeOk env.expectedLoad).2 with
           | .ok _ => []
           | .error _ => [Effect.logE "- Error fixing"])
      else [])

/-! ## General lemmas about the mixer-write primitives -/

/-- When every per-channel write succeeds, `set_capture_state` writes every
channel in order and returns `Ok`. -/
theorem set_capture_state_all_ok (channels : List Nat) (writeOk : Nat → Bool)
    (b : Bool) (h : ∀ ch ∈ channels, writeOk ch = true) :
    set_capture_state channels writeOk b =
      (channels.map (fun ch => Effect.writeChE ch b), Except.ok ()) := by
  induction channels with
  | nil => rfl
  | cons ch rest ih =>
    have hch : writeOk ch = true := h ch (List.mem_cons_self _ _)
    have hrest := ih (fun c hc => h c (List.mem_cons_of_mem _ hc))
    simp [set_capture_state, hch, hrest]

/-- When every per-channel write succeeds, `set_expected_capture_state` is
exactly the store followed by one hardware write per channel. -/
theorem set_expected_capture_state_all_ok (channels : List Nat)
    (writeOk : Nat → Bool) (b : Bool) (h : ∀ ch ∈ channels, writeOk ch = true) :
    set_expected_capture_state channels writeOk b =
      Effect.storeE b :: channels.map (fun ch => Effect.writeChE ch b) := by
  simp [set_expected_capture_state, set_capture_state_all_ok channels writeOk b h]

/-- The trace of `set_capture_state` consists of hardware writes only
(in particular it contains no store and no panic). -/
theorem set_capture_state_writes_only (channels : List Nat) (writeOk : Nat → Bool)
    (b : Bool) : ∀ e ∈ (set_capture_state channels writeOk b).1, e.isHwWrite = true := by
  induction channels with
  | nil => simp [set_capture_state]
  | cons ch rest ih =>
    by_cases hch : writeOk ch
    · simp only [set_capture_state, hch, if_pos, List.mem_cons]
      rintro e (rfl | he)
      · rfl
      · exact ih e he
    · simp [set_capture_state, hch]

/-! ## C1: hardware write failure during a mute/unmute action -/

/-- C1 (counterexample): a hardware write failure inside
`set_expected_capture_state` (the body of both mute-immediately and
unmute-with-delay) does NOT leave the interpreter running: the trace ends in
a panic, so the process aborts, contrary to the claim that the interpreter
continues. -/
theorem C1_counterexample :
    set_expected_capture_state [0] (fun _ => false) true =
      [Effect.storeE true, Effect.logE "Error setting mixer capture state",
       Effect.panicE "Failure to set mixer caputre state"] ∧
    containsPanic (set_expected_capture_state [0] (fun _ => false) true) = true := by
  constructor <;> rfl

/-- C1 (amended): when the hardware write fails during a mute-immediately or
unmute-with-delay action, the failure is logged and the store into
`DesiredCaptureState` is not rolled back (the store is the first trace entry
and nothing after it is a store), but the interpreter then panics, aborting
the process rather than continuing. -/
theorem C1_store_kept_logged_then_panic (channels : List Nat)
    (writeOk : Nat → Bool) (b : Bool) (e : String)
    (h : (set_capture_state channels writeOk b).2 = .error e) :
    set_expected_capture_state channels writeOk b =
      Effect.storeE b :: (set_capture_state channels writeOk b).1 ++
        [Effect.logE "Error setting mixer capture state",
         Effect.panicE "Failure to set mixer caputre state"] ∧
    (∀ eff ∈ (set_capture_state channels writeOk b).1, eff.isStore = false) ∧
    containsPanic (set_expected_capture_state channels writeOk b) = true := by
  refine ⟨?_, ?_, ?_⟩
  · simp [set_expected_capture_state, h]
  · intro eff heff
    have := set_capture_state_writes_only channels writeOk b eff heff
    cases eff <;> simp_all [Effect.isHwWrite, Effect.isStore]
  · simp [set_expected_capture_state, h, containsPanic, Effect.isPanicEff]

/-- C1 (witness): the amended theorem applied to one channel whose write
fails while unmuting. -/
theorem C1_store_kept_logged_then_panic_witness :
    (set_capture_state [0] (fun _ => false) true).2 =
      .error "set_capture_switch failed" ∧
    (set_expected_capture_state [0] (fun _ => false) true =
      Effect.storeE true :: (set_capture_state [0] (fun _ => false) true).1 ++
        [Effect.logE "Error setting mixer capture state",
         Effect.panicE "Failure to set mixer caputre state"] ∧
    (∀ eff ∈ (set_capture_state [0] (fun _ => false) true).1, eff.isStore = false) ∧
    containsPanic (set_expected_capture_state [0] (fun _ => false) true) = true) :=
  ⟨rfl, C1_store_kept_logged_then_panic [0] (fun _ => false) true
    "set_capture_switch failed" rfl⟩

/-! ## C2: enforcer behaviour when channel reads disagree -/

/-- Concrete enforcer environment with disagreeing channel reads
(channel 0 reads `true`, channel 1 reads `false`) and an otherwise healthy
cycle, with `DesiredCaptureState` loaded as `false`. -/
def envDisagree : EnfEnv :=
  ⟨true, [.ok true, .ok false], false, fun _ => true, true, true, false, true⟩

/-- C2 (counterexample): with non-unanimous channel reads the enforcer does
perform hardware writes that cycle — `None != Some(expected)` holds, so it
logs a fix and writes every channel — contrary to the claim that no write
happens. -/
theorem C2_counterexample :
    get_unanimous_capture_state envDisagree.reads = .ok none ∧
    (enforcer_cycle [0, 1] envDisagree).2 =
      [Effect.logE "Fixing capture state", Effect.writeChE 0 false,
       Effect.writeChE 1 false] ∧
    (enforcer_cycle [0, 1] envDisagree).2.any Effect.isHwWrite = true := by
  refine ⟨rfl, rfl, rfl⟩

/-- C2 (amended): in every enforcer cycle in which the per-channel reads are
not unanimous (the unanimity check yields `Ok(None)`), the enforcer treats
the state as a mismatch — `None != Some(expected)` — and, when the writes
succeed, writes the acquire-loaded `DesiredCaptureState` value to every
channel and logs a correction. -/
theorem C2_disagree_writes (channels : List Nat) (env : EnfEnv)
    (hf : env.find_selem_ok = true)
    (hu : get_unanimous_capture_state env.reads = .ok none)
    (hw : ∀ ch ∈ channels, env.writeOk ch = true) :
    (enforcer_cycle channels env).2 =
      Effect.logE "Fixing capture state" ::
        channels.map (fun ch => Effect.writeChE ch env.expectedLoad) := by
  simp [enforcer_cycle, hf, hu,
        set_capture_state_all_ok channels env.writeOk env.expectedLoad hw]

/-- C2 (witness): the amended theorem applied to the concrete disagreeing
environment. -/
theorem C2_disagree_writes_witness :
    envDisagree.find_selem_ok = true ∧
    get_unanimous_capture_state envDisagree.reads = .ok none ∧
    (enforcer_cycle [0, 1] envDisagree).2 =
      Effect.logE "Fixing capture state" ::
        [0, 1].map (fun ch => Effect.writeChE ch envDisagree.expectedLoad) :=
  ⟨rfl, rfl, C2_disagree_writes [0, 1] envDisagree rfl rfl (by decide)⟩

/-! ## C3: enforcer thread survival -/

/-- Concrete enforcer environment where the hardware change wait fails and
everything else is healthy (one channel, reading the expected value). -/
def envWaitFails : EnfEnv :=
  ⟨true, [.ok false], false, fun _ => true, false, true, false, true⟩

/-- C3 (counterexample): a failing `alsa_mixer.wait()` ends the cycle in a
panic — the `expect` terminates the enforcer thread instead of reopening or
resuming the loop, contrary to the claim that the thread never terminates. -/
theorem C3_counterexample :
    enforcer_cycle [0] envWaitFails =
      (CycleEnd.panicked "alsa_mixer.wait() failed", []) := by
  rfl

/-- C3 (amended): only a failed control lookup is retried (sleep 10 ms,
no read, write or wait that cycle); a per-channel read failure, a failure of
the change-notification wait or of the event drain, and a failure to reopen
the mixer after a slow (> 1000 ms) cycle all panic, terminating the enforcer
thread. -/
theorem C3_only_find_selem_retried :
    (∀ (channels : List Nat) (env : EnfEnv), env.find_selem_ok = false →
      enforcer_cycle channels env = (CycleEnd.next false, [Effect.sleepE 10])) ∧
    (∀ (channels : List Nat) (env : EnfEnv) (e : String),
      env.find_selem_ok = true →
      get_unanimous_capture_state env.reads = .error e →
      enforcer_cycle channels env =
        (CycleEnd.panicked "Could not get capture switch value", [])) ∧
    (∀ (channels : List Nat) (env : EnfEnv) (a : Option Bool),
      env.find_selem_ok = true →
      get_unanimous_capture_state env.reads = .ok a →
      env.wait_ok = false →
      (enforcer_cycle channels env).1 =
        CycleEnd.panicked "alsa_mixer.wait() failed") ∧
    (∀ (channels : List Nat) (env : EnfEnv) (a : Option Bool),
      env.find_selem_ok = true →
      get_unanimous_capture_state env.reads = .ok a →
      env.wait_ok = true → env.handle_events_ok = false →
      (enforcer_cycle channels env).1 =
        CycleEnd.panicked "alsa_mixer.handle_events() failed") ∧
    (∀ (channels : List Nat) (env : EnfEnv) (a : Option Bool),
      env.find_selem_ok = true →
      get_unanimous_capture_state env.reads = .ok a →
      env.wait_ok = true → env.handle_events_ok = true →
      env.slow_cycle = true → env.reopen_ok = false →
      (enforcer_cycle channels env).1 =
        CycleEnd.panicked "Failed to setup alsa") := by
  refine ⟨?_, ?_, ?_, ?_, ?_⟩
  · intro channels env hf
    simp [enforcer_cycle, hf]
  · intro channels env e hf hu
    simp [enforcer_cycle, hf, hu]
  · intro channels env a hf hu hw
    simp [enforcer_cycle, hf, hu, hw]
  · intro channels env a hf hu hw hh
    simp [enforcer_cycle, hf, hu, hw, hh]
  · intro channels env a hf hu hw hh hs hr
    simp [enforcer_cycle, hf, hu, hw, hh, hs, hr]

/-- C3 (witness): the amended theorem's five cases at concrete
environments. -/
theorem C3_only_find_selem_retried_witness :
    enforcer_cycle [0] ⟨false, [.ok false], false, fun _ => true, true, true, false, true⟩ =
      (CycleEnd.next false, [Effect.sleepE 10]) ∧
    enforcer_cycle [0] ⟨true, [.error "read failed"], false, fun _ => true, true, true, false, true⟩ =
      (CycleEnd.panicked "Could not get capture switch value", []) ∧
    (enforcer_cycle [0] envWaitFails).1 =
      CycleEnd.panicked "alsa_mixer.wait() failed" ∧
    (enforcer_cycle [0] ⟨true, [.ok false], false, fun _ => true, true, false, false, true⟩).1 =
      CycleEnd.panicked "alsa_mixer.handle_events() failed" ∧
    (enforcer_cycle [0] ⟨true, [.ok false], false, fun _ => true, true, true, true, false⟩).1 =
      CycleEnd.panicked "Failed to setup alsa" :=
  ⟨C3_only_find_selem_retried.1 [0] _ rfl,
   C3_only_find_selem_retried.2.1 [0] _ "read failed" rfl rfl,
   C3_only_find_selem_retried.2.2.1 [0] envWaitFails (some false) rfl rfl rfl,
   C3_only_find_selem_retried.2.2.2.1 [0] _ (some false) rfl rfl rfl rfl,
   C3_only_find_selem_retried.2.2.2.2 [0] _ (some false) rfl rfl rfl rfl rfl rfl⟩

/-! ## C4: conflicting bindings vs. key grabs -/

/-- C4 (counterexample): with the push and toggle bindings both resolving to
`(mod3, 62)`, startup does fail with the conflict error, but the grab
requests for both bindings have already been sent and registered: the grab
list is `[(32, 62), (32, 62)]`, not empty, contrary to the claim that no
grabs are registered. -/
theorem C4_counterexample :
    startup (fun _ => true) 32 [62] 32 [62] [] =
      ([(32, 62), (32, 62)], StartupResult.panicked "Conflicting keybindings") ∧
    (startup (fun _ => true) 32 [62] 32 [62] []).1 ≠ [] := by
  refine ⟨rfl, by decide⟩

/-- C4 (amended): when the push and the toggle binding resolve to the same
`(modifiers, keycode)` pair, startup fails with the `Conflicting keybindings`
error — but only after the key grabs of both bindings have already been
registered with the X server (the grabs are requested before the tables are
built, and are not undone). -/
theorem C4_conflict_after_grabs (m kc : Nat) (k2m : List (Nat × Nat))
    (grabOk : Nat × Nat → Bool) (hg : ∀ g, grabOk g = true) :
    startup grabOk m [kc] m [kc] k2m =
      ([(m, kc), (m, kc)], StartupResult.panicked "Conflicting keybindings") ∧
    (startup grabOk m [kc] m [kc] k2m).1 ≠ [] := by
  have h1 : startup grabOk m [kc] m [kc] k2m =
      ([(m, kc), (m, kc)], StartupResult.panicked "Conflicting keybindings") := by
    simp [startup, listen_to_hotkey, hg, try_collect_map, try_collect_map.go,
          press_entries]
  exact ⟨h1, by rw [h1]; simp⟩

/-- C4 (witness): the amended theorem at the concrete default-style binding
`(mod3, 62)` used for both roles. -/
theorem C4_conflict_after_grabs_witness :
    startup (fun _ => true) 32 [62] 32 [62] [(62, 1)] =
      ([(32, 62), (32, 62)], StartupResult.panicked "Conflicting keybindings") ∧
    (startup (fun _ => true) 32 [62] 32 [62] [(62, 1)]).1 ≠ [] :=
  C4_conflict_after_grabs 32 62 [(62, 1)] (fun _ => true) (fun _ => rfl)

/-! ## C5-C7: interpreter scenarios -/

/-- The press map produced by the default configuration
(push = mod3+62, toggle = mod3+control+62). -/
def pmDefault : KeyMap := [((32, 62), KeyAction.Push), ((36, 62), KeyAction.Toggle)]

/-- The release map produced by the default configuration when keycode 62 is
itself the shift modifier (release masks get bit 1 OR'd in). -/
def rmDefault : KeyMap := [((33, 62), KeyAction.Push), ((37, 62), KeyAction.Toggle)]

/-- C5: for a push binding on keycode 62 with unmute delay 150 ms and
succeeding hardware writes, a press matching the press table stores `true`
into `DesiredCaptureState` and writes every channel on, all strictly after
the 150 ms sleep (150 ms elapse before the store); a release matching the
release table stores `false` and writes every channel off with no delay
(0 ms elapse before the store). -/
theorem C5_push_scenario (pm rm : KeyMap) (channels : List Nat)
    (s s' : InterpState) (pst rst : Nat)
    (hp : pm.lookup (pst, 62) = some KeyAction.Push)
    (hr : rm.lookup (rst, 62) = some KeyAction.Push) :
    handle_press pm channels (fun _ => true) 150 s pst 62 =
      ({ s with expected := true },
       Effect.logE "Unmuting by push-press" :: Effect.sleepE 150 ::
         Effect.storeE true :: channels.map (fun ch => Effect.writeChE ch true)) ∧
    msBeforeFirstStore (handle_press pm channels (fun _ => true) 150 s pst 62).2 = 150 ∧
    handle_release rm channels (fun _ => true) 150 s' rst 62 =
      ({ s' with expected := false },
       Effect.logE "Muting by push-release" ::
         Effect.storeE false :: channels.map (fun ch => Effect.writeChE ch false)) ∧
    msBeforeFirstStore (handle_release rm channels (fun _ => true) 150 s' rst 62).2 = 0 := by
  have hall : ∀ b : Bool, set_expected_capture_state channels (fun _ => true) b =
      Effect.storeE b :: channels.map (fun ch => Effect.writeChE ch b) :=
    fun b => set_expected_capture_state_all_ok channels _ b (fun _ _ => rfl)
  have h1 : handle_press pm channels (fun _ => true) 150 s pst 62 =
      ({ s with expected := true },
       Effect.logE "Unmuting by push-press" :: Effect.sleepE 150 ::
         Effect.storeE true :: channels.map (fun ch => Effect.writeChE ch true)) := by
    simp [handle_press, hp, unmute, hall]
  have h3 : handle_release rm channels (fun _ => true) 150 s' rst 62 =
      ({ s' with expected := false },
       Effect.logE "Muting by push-release" ::
         Effect.storeE false :: channels.map (fun ch => Effect.writeChE ch false)) := by
    simp [handle_release, hr, mute, hall]
  refine ⟨h1, ?_, h3, ?_⟩
  · rw [h1]; simp [msBeforeFirstStore]
  · rw [h3]; simp [msBeforeFirstStore]

/-- C5 (witness): the scenario at the default maps, two channels, starting
muted for the press and unmuted for the release. -/
theorem C5_push_scenario_witness :
    pmDefault.lookup (32, 62) = some KeyAction.Push ∧
    rmDefault.lookup (33, 62) = some KeyAction.Push ∧
    (handle_press pmDefault [0, 1] (fun _ => true) 150 ⟨false, false⟩ 32 62 =
      (⟨true, false⟩,
       Effect.logE "Unmuting by push-press" :: Effect.sleepE 150 ::
         Effect.storeE true :: [0, 1].map (fun ch => Effect.writeChE ch true)) ∧
    msBeforeFirstStore (handle_press pmDefault [0, 1] (fun _ => true) 150 ⟨false, false⟩ 32 62).2 = 150 ∧
    handle_release rmDefault [0, 1] (fun _ => true) 150 ⟨true, false⟩ 33 62 =
      (⟨false, false⟩,
       Effect.logE "Muting by push-release" ::
         Effect.storeE false :: [0, 1].map (fun ch => Effect.writeChE ch false)) ∧
    msBeforeFirstStore (handle_release rmDefault [0, 1] (fun _ => true) 150 ⟨true, false⟩ 33 62).2 = 0) :=
  ⟨rfl, rfl,
   C5_push_scenario pmDefault rmDefault [0, 1] ⟨false, false⟩ ⟨true, false⟩ 32 33 rfl rfl⟩

/-- C6: the toggle role implements the three-state machine over
`(DesiredCaptureState, ToggleLatch)`: from Unmuted (`expected = true`) a
matching press mutes immediately (no sleep before the store) and sets the
latch; from Muted (`expected = false`) a press is a no-op; a matching
release with the latch set only clears the latch, staying Muted; a release
in Muted with the latch clear unmutes with delay; a release in Unmuted with
the latch clear is a no-op. -/
theorem C6_toggle_state_machine (pm rm : KeyMap) (channels : List Nat)
    (writeOk : Nat → Bool) (delay : Nat) (pst pkc rst rkc : Nat) (l : Bool)
    (hpt : pm.lookup (pst, pkc) = some KeyAction.Toggle)
    (hrt : rm.lookup (rst, rkc) = some KeyAction.Toggle) :
    handle_press pm channels writeOk delay ⟨true, l⟩ pst pkc =
      (⟨false, true⟩, Effect.logE "Muting by toggle-press" :: mute channels writeOk) ∧
    msBeforeFirstStore
      (handle_press pm channels writeOk delay ⟨true, l⟩ pst pkc).2 = 0 ∧
    handle_press pm channels writeOk delay ⟨false, l⟩ pst pkc = (⟨false, l⟩, []) ∧
    handle_release rm channels writeOk delay ⟨false, true⟩ rst rkc =
      (⟨false, false⟩, []) ∧
    handle_release rm channels writeOk delay ⟨false, false⟩ rst rkc =
      (⟨true, false⟩,
       Effect.logE "Unmuting by toggle-release" :: unmute channels writeOk delay) ∧
    handle_release rm channels writeOk delay ⟨true, false⟩ rst rkc =
      (⟨true, false⟩, []) := by
  refine ⟨?_, ?_, ?_, ?_, ?_, ?_⟩
  · simp [handle_press, hpt]
  · simp [handle_press, hpt, mute, set_expected_capture_state, msBeforeFirstStore]
  · simp [handle_press, hpt]
  · simp [handle_release, hrt]
  · simp [handle_release, hrt]
  · simp [handle_release, hrt]

/-- C6 (witness): the state machine at the default toggle binding
`(mod3+control, 62)`, two channels, delay 150 ms. -/
theorem C6_toggle_state_machine_witness :
    pmDefault.lookup (36, 62) = some KeyAction.Toggle ∧
    rmDefault.lookup (37, 62) = some KeyAction.Toggle ∧
    (handle_press pmDefault [0, 1] (fun _ => true) 150 ⟨true, false⟩ 36 62 =
      (⟨false, true⟩,
       Effect.logE "Muting by toggle-press" :: mute [0, 1] (fun _ => true)) ∧
    msBeforeFirstStore
      (handle_press pmDefault [0, 1] (fun _ => true) 150 ⟨true, false⟩ 36 62).2 = 0 ∧
    handle_press pmDefault [0, 1] (fun _ => true) 150 ⟨false, false⟩ 36 62 =
      (⟨false, false⟩, []) ∧
    handle_release rmDefault [0, 1] (fun _ => true) 150 ⟨false, true⟩ 37 62 =
      (⟨false, false⟩, []) ∧
    handle_release rmDefault [0, 1] (fun _ => true) 150 ⟨false, false⟩ 37 62 =
      (⟨true, false⟩,
       Effect.logE "Unmuting by toggle-release" :: unmute [0, 1] (fun _ => true) 150) ∧
    handle_release rmDefault [0, 1] (fun _ => true) 150 ⟨true, false⟩ 37 62 =
      (⟨true, false⟩, [])) :=
  ⟨rfl, rfl,
   C6_toggle_state_machine pmDefault rmDefault [0, 1] (fun _ => true) 150
     36 62 37 62 false rfl rfl⟩

/-- C7: when the current event is a release and the peeked next event is a
press with the identical keycode and identical timestamp, the interpreter
discards both events entirely: the run over the queue is the run over the
remaining events — no table lookup and no action happens for either event,
whatever the maps contain. -/
theorem C7_debounce_discards_pair (pm rm : KeyMap) (channels : List Nat)
    (writeOk : Nat → Bool) (delay : Nat) (s : InterpState)
    (st st2 kc t : Nat) (rest : List XEvent) :
    interp_run pm rm channels writeOk delay s
        (XEvent.keyRelease st kc t :: XEvent.keyPress st2 kc t :: rest) =
      interp_run pm rm channels writeOk delay s rest := by
  simp [interp_run]

/-! ## C8-C10 -/

/-- C8: in every enforcer cycle where the control is found, the per-channel
reads are unanimous with value `v`, `v` differs from the acquire-loaded
`DesiredCaptureState`, and the channel writes succeed, the enforcer logs the
correction and writes the desired value to every channel. -/
theorem C8_enforcer_corrects_mismatch (channels : List Nat) (env : EnfEnv)
    (v : Bool) (hf : env.find_selem_ok = true)
    (hu : get_unanimous_capture_state env.reads = .ok (some v))
    (hv : v ≠ env.expectedLoad)
    (hw : ∀ ch ∈ channels, env.writeOk ch = true) :
    (enforcer_cycle channels env).2 =
      Effect.logE "Fixing capture state" ::
        channels.map (fun ch => Effect.writeChE ch env.expectedLoad) := by
  simp [enforcer_cycle, hf, hu, hv,
        set_capture_state_all_ok channels env.writeOk env.expectedLoad hw]

/-- Concrete enforcer environment: both channels unanimously read `true`
while `DesiredCaptureState` was loaded as `false`. -/
def envMismatch : EnfEnv :=
  ⟨true, [.ok true, .ok true], false, fun _ => true, true, true, false, true⟩

/-- C8 (witness): the correction at the concrete mismatching environment. -/
theorem C8_enforcer_corrects_mismatch_witness :
    envMismatch.find_selem_ok = true ∧
    get_unanimous_capture_state envMismatch.reads = .ok (some true) ∧
    (enforcer_cycle [0, 1] envMismatch).2 =
      Effect.logE "Fixing capture state" ::
        [0, 1].map (fun ch => Effect.writeChE ch envMismatch.expectedLoad) :=
  ⟨rfl, rfl,
   C8_enforcer_corrects_mismatch [0, 1] envMismatch true rfl rfl
     (by decide) (by decide)⟩

/-- C9: for every resolved keycode of a binding, the press-table entry uses
the declared mask unchanged, while the release-table entry uses the declared
mask OR'd with the keycode's own modifier bit when the modifier mapping
lists the keycode as a modifier, and the declared mask unchanged when it
does not. -/
theorem C9_release_mask_or_modifier_bit (declared : Nat)
    (k2m : List (Nat × Nat)) (kcs : List Nat) (act : KeyAction) (kc : Nat)
    (hkc : kc ∈ kcs) :
    (∀ m : Nat, k2m.lookup kc = some m →
      ((from_mod_mask declared, kc), act) ∈ press_entries declared kcs act ∧
      ((from_mod_mask (declared ||| m), kc), act) ∈
        release_entries declared k2m kcs act) ∧
    (k2m.lookup kc = none →
      ((from_mod_mask declared, kc), act) ∈ press_entries declared kcs act ∧
      ((from_mod_mask declared, kc), act) ∈
        release_entries declared k2m kcs act) := by
  constructor
  · intro m hm
    refine ⟨List.mem_map.mpr ⟨kc, hkc, rfl⟩, List.mem_map.mpr ⟨kc, hkc, ?_⟩⟩
    simp [release_modifiers_for, hm]
  · intro hm
    refine ⟨List.mem_map.mpr ⟨kc, hkc, rfl⟩, List.mem_map.mpr ⟨kc, hkc, ?_⟩⟩
    simp [release_modifiers_for, hm]

/-- A concrete `GetModifierMapping` reply (2 keycodes per modifier) placing
keycode 62 in the shift row. -/
def replyShift62 : List Nat :=
  [62, 0, 0, 0, 37, 105, 64, 108, 0, 0, 133, 134, 0, 0, 92, 0]

/-- C9 (witness): with keycode 62 mapped to shift (bit 1) by the modifier
mapping, the push binding `(mod3 = 32, 62)` gets press mask 32 and release
mask `32 ||| 1 = 33`. -/
theorem C9_release_mask_or_modifier_bit_witness :
    (62 : Nat) ∈ [62] ∧
    (get_modifier_mapping replyShift62).lookup 62 = some 1 ∧
    (((from_mod_mask 32, 62), KeyAction.Push) ∈
        press_entries 32 [62] KeyAction.Push ∧
      ((from_mod_mask (32 ||| 1), 62), KeyAction.Push) ∈
        release_entries 32 (get_modifier_mapping replyShift62) [62] KeyAction.Push) :=
  ⟨by decide, by rfl,
   (C9_release_mask_or_modifier_bit 32 (get_modifier_mapping replyShift62)
     [62] KeyAction.Push 62 (by decide)).1 1 (by rfl)⟩

/-- C10: a push press while the toggle latch is set leaves the latch set and
makes `DesiredCaptureState` true; the next matching toggle release then only
clears the latch — it performs no action (empty trace, so neither mute nor
unmute) and `DesiredCaptureState` stays true. -/
theorem C10_push_press_keeps_latch (pm rm : KeyMap) (channels : List Nat)
    (writeOk : Nat → Bool) (delay : Nat) (s : InterpState) (pst pkc rst rkc : Nat)
    (hp : pm.lookup (pst, pkc) = some KeyAction.Push)
    (hr : rm.lookup (rst, rkc) = some KeyAction.Toggle)
    (hl : s.mutePendingRelease = true) :
    (handle_press pm channels writeOk delay s pst pkc).1 = ⟨true, true⟩ ∧
    handle_release rm channels writeOk delay ⟨true, true⟩ rst rkc =
      (⟨true, false⟩, []) := by
  obtain ⟨e, m⟩ := s
  simp only at hl
  subst hl
  exact ⟨by simp [handle_press, hp], by simp [handle_release, hr]⟩

/-- C10 (witness): the sequence at the default maps, starting right after a
toggle press (muted, latch set). -/
theorem C10_push_press_keeps_latch_witness :
    pmDefault.lookup (32, 62) = some KeyAction.Push ∧
    rmDefault.lookup (37, 62) = some KeyAction.Toggle ∧
    ((handle_press pmDefault [0, 1] (fun _ => true) 150 ⟨false, true⟩ 32 62).1 =
        ⟨true, true⟩ ∧
      handle_release rmDefault [0, 1] (fun _ => true) 150 ⟨true, true⟩ 37 62 =
        (⟨true, false⟩, [])) :=
  ⟨rfl, rfl,
   C10_push_press_keeps_latch pmDefault rmDefault [0, 1] (fun _ => true) 150
     ⟨false, true⟩ 32 62 37 62 rfl rfl rfl⟩
